import Mathlib

/-!
# Rangista backend — cart / stock / order-commit subsystem, shallow embedding

A shallow embedding of the reservation/commit core of the Rangista backend
(`src/crud.py`, `src/main.py`, `src/models.py`) and proofs about it.

Modelling conventions:
* The database session is explicit state: a `DB` record of table rows
  (`users`, `products`, `cart`, `orders`, `order_items`).  SQLAlchemy
  `query(...).first()` becomes `List.find?`, `.all()` with a filter becomes
  `List.filter`, a join becomes `List.filterMap` with an option-valued lookup.
* Python integers are unbounded, so ids, quantities, prices and stock
  counters are `Int` (the `Integer` columns of `models.py`).
* `size` is stored as a string in the database, but every code path in
  `crud.py` branches over exactly the six literals `"XS" … "XXL"` (with
  `XXL` as the final `else` of the price ladder), so sizes are modelled by
  the closed six-value enum `Size`.
* A function that can `raise HTTPException` or return `None` produces
  `DB × Except CrudError α`: the returned `DB` is the committed state at the
  moment the function returns or raises.  In every `crud.py` error path the
  `raise` happens before any mutation of the session, except for
  `create_order_from_cart`, whose intermediate `db.commit()` calls are
  modelled by keeping the mutated state when the final read raises.
* `date.fromisoformat` is modelled as the identity on (valid) ISO date
  strings: dates are represented by their ISO string.
-/

namespace Rangista

/-- The closed size-tier enum `{XS, S, M, L, XL, XXL}` over which every
price/stock ladder in `crud.py` branches. -/
inductive Size
  | XS
  | S
  | M
  | L
  | XL
  | XXL
deriving DecidableEq, Repr

/-- `models.Product` (src/models.py): six per-size unit prices and six
per-size stock counters, plus the display columns used by the cart view. -/
structure Product where
  id : String
  name : String
  image : String
  collection : String
  XS_price : Int
  S_price : Int
  M_price : Int
  L_price : Int
  XL_price : Int
  XXL_price : Int
  XS_stock : Int
  S_stock : Int
  M_stock : Int
  L_stock : Int
  XL_stock : Int
  XXL_stock : Int
deriving DecidableEq, Repr

/-- `models.User` (src/models.py), restricted to the columns the cart/order
subsystem reads. -/
structure User where
  id : Int
  username : String
deriving DecidableEq, Repr

/-- `models.Cart` (src/models.py): one cart row. -/
structure CartRow where
  user_id : Int
  product_id : String
  size : Size
  quantity : Int
deriving DecidableEq, Repr

/-- `models.Order` (src/models.py).  The active `Order` class has exactly
the columns `id`, `user_id`, `status`, `time` and no ORM relationships. -/
structure OrderRow where
  id : Int
  user_id : Int
  status : String
  time : String
deriving DecidableEq, Repr

/-- `models.OrderItem` (src/models.py), minus the surrogate `id` column,
which no code path reads. -/
structure OrderItemRow where
  order_id : Int
  product_id : String
  size : Size
  quantity : Int
deriving DecidableEq, Repr

/-- The database state seen by one request: the five tables touched by the
cart/order subsystem plus the autoincrement counter for `orders.id`. -/
structure DB where
  users : List User
  products : List Product
  cart : List CartRow
  orders : List OrderRow
  order_items : List OrderItemRow
  next_order_id : Int
deriving DecidableEq, Repr

/-- Outcomes of a crud-layer call that does not return normally.
`noneResult` is Python `return None` (mapped by `src/main.py` to a 4xx
response); the remaining constructors are the `HTTPException`s raised in
`src/crud.py`, plus `attributeError` for the `AttributeError` raised by
`order.user` (the active `models.Order` has no `user` relationship) and
`validationError` for a request rejected by the pydantic schema layer. -/
inductive CrudError
  | noneResult
  | insufficientStock (s : Size)
  | userNotFound
  | cartEmpty
  | productNotFound (pid : String)
  | attributeError
  | validationError
deriving DecidableEq, Repr

/-- The six-way price ladder
`XS_price if size == "XS" else … else XXL_price` (src/crud.py 1125–1132). -/
def priceFor (p : Product) (s : Size) : Int :=
  match s with
  | .XS => p.XS_price
  | .S => p.S_price
  | .M => p.M_price
  | .L => p.L_price
  | .XL => p.XL_price
  | .XXL => p.XXL_price

/-- The six-way stock ladder `product.XS_stock … product.XXL_stock`
(src/crud.py 1430–1441 and parallels). -/
def stockFor (p : Product) (s : Size) : Int :=
  match s with
  | .XS => p.XS_stock
  | .S => p.S_stock
  | .M => p.M_stock
  | .L => p.L_stock
  | .XL => p.XL_stock
  | .XXL => p.XXL_stock

/-- `product.<size>_stock -= q` under the size ladder
(src/crud.py 1444–1455, 1546–1557, 1595–1606). -/
def deductStock (p : Product) (s : Size) (q : Int) : Product :=
  match s with
  | .XS => { p with XS_stock := p.XS_stock - q }
  | .S => { p with S_stock := p.S_stock - q }
  | .M => { p with M_stock := p.M_stock - q }
  | .L => { p with L_stock := p.L_stock - q }
  | .XL => { p with XL_stock := p.XL_stock - q }
  | .XXL => { p with XXL_stock := p.XXL_stock - q }

/-- `product.<size>_stock += q` under the size ladder
(src/crud.py 1458–1469, 1560–1571, 1494–1505). -/
def addStock (p : Product) (s : Size) (q : Int) : Product :=
  match s with
  | .XS => { p with XS_stock := p.XS_stock + q }
  | .S => { p with S_stock := p.S_stock + q }
  | .M => { p with M_stock := p.M_stock + q }
  | .L => { p with L_stock := p.L_stock + q }
  | .XL => { p with XL_stock := p.XL_stock + q }
  | .XXL => { p with XXL_stock := p.XXL_stock + q }

/-- `db.query(models.Product).filter(models.Product.id == product_id).first()`. -/
def findProduct (db : DB) (pid : String) : Option Product :=
  db.products.find? (fun p => p.id == pid)

/-- The row filter `Cart.user_id == uid, Cart.product_id == pid, Cart.size == s`
shared by every cart query in `crud.py`. -/
def cartMatches (uid : Int) (pid : String) (s : Size) (c : CartRow) : Bool :=
  c.user_id == uid && c.product_id == pid && c.size == s

/-- `db.query(models.Cart).filter(user_id ==, product_id ==, size ==).first()`. -/
def findCartEntry (db : DB) (uid : Int) (pid : String) (s : Size) : Option CartRow :=
  db.cart.find? (cartMatches uid pid s)

/-- `db.query(models.User).filter(models.User.id == user_id).first()`. -/
def findUser (db : DB) (uid : Int) : Option User :=
  db.users.find? (fun u => u.id == uid)

/-- Mutating the ORM `Product` object returned by `.first()`: apply `f` to
the first row whose `id` matches, leaving every other row unchanged. -/
def updateFirstProduct : List Product → String → (Product → Product) → List Product
  | [], _, _ => []
  | p :: ps, pid, f => if p.id == pid then f p :: ps else p :: updateFirstProduct ps pid f

/-- Mutating the ORM `Cart` object returned by `.first()`:
`cart_item.quantity = quantity` on the first row matching the triple. -/
def setQtyFirst : List CartRow → Int → String → Size → Int → List CartRow
  | [], _, _, _, _ => []
  | c :: cs, uid, pid, s, q =>
      if cartMatches uid pid s c then { c with quantity := q } :: cs
      else c :: setQtyFirst cs uid pid s q

/-- `db.delete(cart_item)` on the row returned by `.first()`: drop the
first row matching the triple. -/
def removeFirstEntry : List CartRow → Int → String → Size → List CartRow
  | [], _, _, _ => []
  | c :: cs, uid, pid, s =>
      if cartMatches uid pid s c then cs
      else c :: removeFirstEntry cs uid pid s

/-- `schemas.CartCreate` as used by `crud.add_to_cart`. -/
structure CartCreate where
  user_id : Int
  product_id : String
  size : Size
  quantity : Int
deriving DecidableEq, Repr

/-- `schemas.OrderCreate` as used by `crud.create_order_from_cart`. -/
structure OrderCreate where
  user_id : Int
  order_time : String
deriving DecidableEq, Repr

/-- `crud.add_to_cart` (src/crud.py 1515–1619).  Returns `None` if the
product is missing; otherwise, on an existing (user, product, size) row,
applies the signed quantity delta to that size's stock (raising
`InsufficientStock` when a positive delta exceeds available stock) and sets
the row's quantity; on a new row, checks and deducts the full quantity and
inserts the row. -/
def add_to_cart (db : DB) (ci : CartCreate) : DB × Except CrudError CartRow :=
  match findProduct db ci.product_id with
  | none => (db, .error .noneResult)
  | some product =>
    match findCartEntry db ci.user_id ci.product_id ci.size with
    | some existing_cart_item =>
      let quantity_delta := ci.quantity - existing_cart_item.quantity
      if 0 < quantity_delta then
        if stockFor product ci.size < quantity_delta then
          (db, .error (.insufficientStock ci.size))
        else
          ({ db with
              products := updateFirstProduct db.products ci.product_id
                (fun p => deductStock p ci.size quantity_delta),
              cart := setQtyFirst db.cart ci.user_id ci.product_id ci.size ci.quantity },
            .ok { existing_cart_item with quantity := ci.quantity })
      else if quantity_delta < 0 then
        ({ db with
            products := updateFirstProduct db.products ci.product_id
              (fun p => addStock p ci.size (abs quantity_delta)),
            cart := setQtyFirst db.cart ci.user_id ci.product_id ci.size ci.quantity },
          .ok { existing_cart_item with quantity := ci.quantity })
      else
        ({ db with
            cart := setQtyFirst db.cart ci.user_id ci.product_id ci.size ci.quantity },
          .ok { existing_cart_item with quantity := ci.quantity })
    | none =>
      if stockFor product ci.size < ci.quantity then
        (db, .error (.insufficientStock ci.size))
      else
        ({ db with
            products := updateFirstProduct db.products ci.product_id
              (fun p => deductStock p ci.size ci.quantity),
            cart := db.cart ++ [⟨ci.user_id, ci.product_id, ci.size, ci.quantity⟩] },
          .ok ⟨ci.user_id, ci.product_id, ci.size, ci.quantity⟩)

/-- `crud.update_cart_quantity` (src/crud.py 1414–1476).  Returns `None` if
the cart row or the product is missing; otherwise applies the signed
quantity delta to stock exactly as `add_to_cart` does on an existing row. -/
def update_cart_quantity (db : DB) (user_id : Int) (product_id : String) (size : Size)
    (quantity : Int) : DB × Except CrudError CartRow :=
  match findCartEntry db user_id product_id size with
  | none => (db, .error .noneResult)
  | some cart_item =>
    match findProduct db product_id with
    | none => (db, .error .noneResult)
    | some product =>
      let quantity_delta := quantity - cart_item.quantity
      if 0 < quantity_delta then
        if stockFor product size < quantity_delta then
          (db, .error (.insufficientStock size))
        else
          ({ db with
              products := updateFirstProduct db.products product_id
                (fun p => deductStock p size quantity_delta),
              cart := setQtyFirst db.cart user_id product_id size quantity },
            .ok { cart_item with quantity := quantity })
      else if quantity_delta < 0 then
        ({ db with
            products := updateFirstProduct db.products product_id
              (fun p => addStock p size (abs quantity_delta)),
            cart := setQtyFirst db.cart user_id product_id size quantity },
          .ok { cart_item with quantity := quantity })
      else
        ({ db with cart := setQtyFirst db.cart user_id product_id size quantity },
          .ok { cart_item with quantity := quantity })

/-- `crud.remove_from_cart` (src/crud.py 1481–1510).  Returns `None` if the
cart row is missing, and also if the row exists but the referenced product
is missing; otherwise releases the row's quantity back to that size's stock
and deletes the row. -/
def remove_from_cart (db : DB) (user_id : Int) (product_id : String) (size : Size) :
    DB × Except CrudError Unit :=
  match findCartEntry db user_id product_id size with
  | none => (db, .error .noneResult)
  | some cart_item =>
    match findProduct db product_id with
    | none => (db, .error .noneResult)
    | some _ =>
      ({ db with
          products := updateFirstProduct db.products product_id
            (fun p => addStock p size cart_item.quantity),
          cart := removeFirstEntry db.cart user_id product_id size },
        .ok ())

/-- `schemas.CartProduct` as constructed by `crud.get_user_cart`. -/
structure CartProduct where
  product_name : String
  collection : String
  size : Size
  quantity : Int
  image : String
  user_id : Int
  product_id : String
  price : Int
deriving DecidableEq, Repr

/-- `schemas.CartResponse` as constructed by `crud.get_user_cart`. -/
structure CartResponse where
  total_products : Nat
  items : List CartProduct
deriving DecidableEq, Repr

/-- `crud.get_user_cart` (src/crud.py 1097–1149): inner-join of `products`
with the user's `cart` rows (a row whose product is missing from the
catalog joins to nothing and is dropped), each row enriched with the
per-size unit price; `total_products = len(items)`.  Read-only. -/
def get_user_cart (db : DB) (user_id : Int) : CartResponse :=
  let results := db.cart.filterMap (fun c =>
    if c.user_id == user_id then
      (findProduct db c.product_id).map (fun p => (p, c))
    else none)
  let items := results.map (fun r =>
    { product_name := r.1.name
      collection := r.1.collection
      size := r.2.size
      quantity := r.2.quantity
      image := r.1.image
      user_id := r.2.user_id
      product_id := r.2.product_id
      price := priceFor r.1 r.2.size : CartProduct })
  { total_products := items.length, items := items }

/-- `schemas.OrderProduct` as constructed by the order-read projections. -/
structure OrderProduct where
  product_name : String
  quantity : Int
  size : Size
  product_id : String
  price : Int
deriving DecidableEq, Repr

/-- `schemas.OrderResponse` as constructed by the order-read projections. -/
structure OrderResponse where
  order_id : Int
  user_id : Int
  username : String
  status : String
  total_products : Nat
  total_price : Int
  products : List OrderProduct
  order_time : String
deriving DecidableEq, Repr

/-- `crud.get_user_orders` (src/crud.py 1223–1288).  The query inner-joins
`orders` with `users` and filters by `user_id`.  The loop body then builds
an `OrderResponse` whose `username` keyword argument evaluates
`order.user.username` — but the active `models.Order` (src/models.py
190–195) declares no `user` relationship, so the first iteration raises
`AttributeError`; the price/total computation above that line is
unreachable on any non-empty result.  Hence: empty result list → `[]`,
non-empty → `AttributeError`. -/
def get_user_orders (db : DB) (user_id : Int) : Except CrudError (List OrderResponse) :=
  let results := db.orders.filter
    (fun o => o.user_id == user_id && (findUser db o.user_id).isSome)
  match results with
  | [] => .ok []
  | _ :: _ => .error .attributeError

/-- `crud.create_order_from_cart` (src/crud.py 1624–1671): validate the
user, load the cart (error if empty), verify every referenced product
exists (error naming the first missing one) — all before any write; then
insert the order header (`status = "pending"`, the given time), one
`OrderItem` per cart row, delete the user's cart rows, committing each
step, and finally return `get_user_orders` (whose raise, if any, happens
after the commits). -/
def create_order_from_cart (db : DB) (order : OrderCreate) :
    DB × Except CrudError (List OrderResponse) :=
  match findUser db order.user_id with
  | none => (db, .error .userNotFound)
  | some _ =>
    let cart_items := db.cart.filter (fun c => c.user_id == order.user_id)
    match cart_items with
    | [] => (db, .error .cartEmpty)
    | _ :: _ =>
      match cart_items.find? (fun c => (findProduct db c.product_id).isNone) with
      | some item => (db, .error (.productNotFound item.product_id))
      | none =>
        let db_order : OrderRow :=
          ⟨db.next_order_id, order.user_id, "pending", order.order_time⟩
        let db1 : DB :=
          { db with
            orders := db.orders ++ [db_order]
            order_items := db.order_items ++ cart_items.map
              (fun c => ⟨db_order.id, c.product_id, c.size, c.quantity⟩)
            cart := db.cart.filter (fun c => !(c.user_id == order.user_id))
            next_order_id := db.next_order_id + 1 }
        (db1, get_user_orders db1 order.user_id)

/-- `main.remove_from_cart` (src/main.py 314–319): a falsy crud result is
surfaced as `404 "Cart item not found"`; otherwise the refreshed cart view
is returned. -/
def remove_from_cart_route (db : DB) (user_id : Int) (product_id : String) (size : Size) :
    DB × Except (Int × String) CartResponse :=
  let r := remove_from_cart db user_id product_id size
  match r.2 with
  | .error _ => (r.1, .error (404, "Cart item not found"))
  | .ok _ => (r.1, .ok (get_user_cart r.1 user_id))

/-- Modelled from the spec: the pydantic request-validation layer
(`schemas.CartCreate`, a repository file not under src/) gates
`crud.add_to_cart`; per the spec, `addOrUpdate(user_id, product_id, size,
quantity)` "requires `quantity ≥ 1`", so a request with a smaller quantity
is rejected before the crud layer runs. -/
def add_to_cart_validated (db : DB) (ci : CartCreate) : DB × Except CrudError CartRow :=
  if ci.quantity < 1 then (db, .error .validationError) else add_to_cart db ci

/-- Modelled from the spec: the pydantic request-validation layer
(`schemas.CartUpdate`, a repository file not under src/) gates
`crud.update_cart_quantity`; per the spec, `addOrUpdate` "requires
`quantity ≥ 1`". -/
def update_cart_quantity_validated (db : DB) (user_id : Int) (product_id : String)
    (size : Size) (quantity : Int) : DB × Except CrudError CartRow :=
  if quantity < 1 then (db, .error .validationError)
  else update_cart_quantity db user_id product_id size quantity

/-! ## Basic lemmas about the stock ladders -/

theorem stockFor_deductStock (p : Product) (s : Size) (q : Int) :
    stockFor (deductStock p s q) s = stockFor p s - q := by
  cases s <;> rfl

theorem stockFor_addStock (p : Product) (s : Size) (q : Int) :
    stockFor (addStock p s q) s = stockFor p s + q := by
  cases s <;> rfl

theorem stockFor_deductStock_ne (p : Product) (s s' : Size) (q : Int) (h : s' ≠ s) :
    stockFor (deductStock p s q) s' = stockFor p s' := by
  cases s <;> cases s' <;> simp_all [deductStock, stockFor]

theorem stockFor_addStock_ne (p : Product) (s s' : Size) (q : Int) (h : s' ≠ s) :
    stockFor (addStock p s q) s' = stockFor p s' := by
  cases s <;> cases s' <;> simp_all [addStock, stockFor]

theorem deductStock_id (p : Product) (s : Size) (q : Int) :
    (deductStock p s q).id = p.id := by
  cases s <;> rfl

theorem addStock_id (p : Product) (s : Size) (q : Int) :
    (addStock p s q).id = p.id := by
  cases s <;> rfl

theorem addStock_deductStock (p : Product) (s : Size) (q : Int) :
    addStock (deductStock p s q) s q = p := by
  cases s <;> simp [addStock, deductStock, sub_add_cancel]

/-! ## Lemmas about first-match row updates -/

theorem find?_updateFirstProduct (l : List Product) (pid : String) (f : Product → Product)
    (p : Product) (hf : ∀ q, (f q).id = q.id)
    (h : l.find? (fun x => x.id == pid) = some p) :
    (updateFirstProduct l pid f).find? (fun x => x.id == pid) = some (f p) := by
  induction l with
  | nil => simp at h
  | cons a l ih =>
    by_cases ha : a.id = pid
    · rw [List.find?_cons_of_pos _ (by simp [ha])] at h
      cases h
      simp [updateFirstProduct, ha, List.find?_cons_of_pos, hf]
    · rw [List.find?_cons_of_neg _ (by simp [ha])] at h
      simp only [updateFirstProduct, if_neg (by simp [ha] : ¬(a.id == pid) = true)]
      rw [List.find?_cons_of_neg _ (by simp [ha])]
      exact ih h

theorem updateFirstProduct_updateFirstProduct (l : List Product) (pid : String)
    (f g : Product → Product) (hf : ∀ q, (f q).id = q.id) :
    updateFirstProduct (updateFirstProduct l pid f) pid g
      = updateFirstProduct l pid (fun p => g (f p)) := by
  induction l with
  | nil => rfl
  | cons a l ih =>
    by_cases ha : a.id = pid
    · simp [updateFirstProduct, ha, hf]
    · simp [updateFirstProduct, ha, ih]

theorem updateFirstProduct_congr (l : List Product) (pid : String)
    (f g : Product → Product) (h : ∀ p, f p = g p) :
    updateFirstProduct l pid f = updateFirstProduct l pid g := by
  induction l with
  | nil => rfl
  | cons a l ih => simp only [updateFirstProduct, h, ih]

theorem updateFirstProduct_id (l : List Product) (pid : String) :
    updateFirstProduct l pid (fun p => p) = l := by
  induction l with
  | nil => rfl
  | cons a l ih =>
    simp only [updateFirstProduct, ih]
    split <;> rfl

/-! ## Lemmas about first-match cart updates -/

theorem find?_setQtyFirst (l : List CartRow) (uid : Int) (pid : String) (s : Size)
    (q : Int) (e : CartRow)
    (h : l.find? (cartMatches uid pid s) = some e) :
    (setQtyFirst l uid pid s q).find? (cartMatches uid pid s)
      = some { e with quantity := q } := by
  induction l with
  | nil => simp at h
  | cons a l ih =>
    cases ha : cartMatches uid pid s a with
    | true =>
      simp only [List.find?_cons, ha] at h
      have he : a = e := Option.some.inj h
      subst he
      have ha' : cartMatches uid pid s { a with quantity := q } = true := by
        simpa [cartMatches] using ha
      simp [setQtyFirst, ha, List.find?_cons, ha']
    | false =>
      simp only [List.find?_cons, ha] at h
      simp [setQtyFirst, ha, List.find?_cons, ih h]

theorem setQtyFirst_self (l : List CartRow) (uid : Int) (pid : String) (s : Size)
    (e : CartRow)
    (h : l.find? (cartMatches uid pid s) = some e) :
    setQtyFirst l uid pid s e.quantity = l := by
  induction l with
  | nil => rfl
  | cons a l ih =>
    cases ha : cartMatches uid pid s a with
    | true =>
      simp only [List.find?_cons, ha] at h
      have he : a = e := Option.some.inj h
      subst he
      simp [setQtyFirst, ha]
    | false =>
      simp only [List.find?_cons, ha] at h
      simp [setQtyFirst, ha, ih h]

theorem mem_setQtyFirst (l : List CartRow) (uid : Int) (pid : String) (s : Size)
    (q : Int) (r : CartRow) (hr : r ∈ setQtyFirst l uid pid s q) :
    r ∈ l ∨ r.quantity = q := by
  induction l with
  | nil => simp [setQtyFirst] at hr
  | cons a l ih =>
    simp only [setQtyFirst] at hr
    split at hr
    · rcases List.mem_cons.mp hr with h | h
      · right; rw [h]
      · left; exact List.mem_cons_of_mem _ h
    · rcases List.mem_cons.mp hr with h | h
      · left; rw [h]; exact List.mem_cons_self _ _
      · rcases ih h with h' | h'
        · left; exact List.mem_cons_of_mem _ h'
        · right; exact h'

theorem removeFirstEntry_append_singleton (l : List CartRow) (uid : Int) (pid : String)
    (s : Size) (r : CartRow)
    (hl : l.find? (cartMatches uid pid s) = none)
    (hr : cartMatches uid pid s r = true) :
    removeFirstEntry (l ++ [r]) uid pid s = l := by
  induction l with
  | nil => simp [removeFirstEntry, hr]
  | cons a l ih =>
    cases ha : cartMatches uid pid s a with
    | true =>
      simp only [List.find?_cons, ha] at hl
      exact Option.noConfusion hl
    | false =>
      simp only [List.find?_cons, ha] at hl
      simp [removeFirstEntry, ha, ih hl]

theorem find?_append_singleton (l : List CartRow) (p : CartRow → Bool) (r : CartRow)
    (hl : l.find? p = none) (hr : p r = true) :
    (l ++ [r]).find? p = some r := by
  induction l with
  | nil => simp [List.find?, hr]
  | cons a l ih =>
    cases ha : p a with
    | true =>
      simp only [List.find?_cons, ha] at hl
      exact Option.noConfusion hl
    | false =>
      simp only [List.find?_cons, ha] at hl
      simp [List.find?_cons, ha, ih hl]

/-! ## Concrete states used by witnesses and counterexamples -/

/-- A catalog product with per-size prices `5,6,10,8,9,11` and per-size
stock `4,4,5,4,4,4`. -/
def exP : Product :=
  ⟨"p1", "tee", "img", "basics", 5, 6, 10, 8, 9, 11, 4, 4, 5, 4, 4, 4⟩

/-- One user, one product, empty cart. -/
def dbEmptyCart : DB := ⟨[⟨1, "u1"⟩], [exP], [], [], [], 1⟩

/-- One user, one product, a cart row `(1, "p1", M, 2)`. -/
def dbOneEntry : DB := ⟨[⟨1, "u1"⟩], [exP], [⟨1, "p1", Size.M, 2⟩], [], [], 1⟩

/-- A cart row for user 1 referencing product `"ghost"`, absent from the
catalog. -/
def dbOrphanEntry : DB := ⟨[⟨1, "u1"⟩], [exP], [⟨1, "ghost", Size.M, 2⟩], [], [], 1⟩

/-! ## Claims -/

/-- **C1** For every add-to-cart of a new entry (no existing cart row for
the (user_id, product_id, size) triple) with the product present: if the
product's stock counter for that size is strictly less than the requested
quantity, the operation fails with an InsufficientStock error naming that
size and leaves the stock counter and the cart unchanged; otherwise it
decrements exactly that size's stock counter by the requested quantity and
creates the cart entry with that quantity. -/
theorem addToCart_new_entry (db : DB) (ci : CartCreate) (p : Product)
    (hp : findProduct db ci.product_id = some p)
    (hne : findCartEntry db ci.user_id ci.product_id ci.size = none) :
    (stockFor p ci.size < ci.quantity →
      add_to_cart db ci = (db, .error (.insufficientStock ci.size)))
    ∧ (¬ stockFor p ci.size < ci.quantity →
      ∃ db1 : DB,
        add_to_cart db ci
          = (db1, .ok ⟨ci.user_id, ci.product_id, ci.size, ci.quantity⟩)
        ∧ (findProduct db1 ci.product_id).map (fun r => stockFor r ci.size)
            = some (stockFor p ci.size - ci.quantity)
        ∧ (∀ s : Size, s ≠ ci.size →
            (findProduct db1 ci.product_id).map (fun r => stockFor r s)
              = some (stockFor p s))
        ∧ db1.cart = db.cart ++ [⟨ci.user_id, ci.product_id, ci.size, ci.quantity⟩]
        ∧ db1.users = db.users ∧ db1.orders = db.orders
        ∧ db1.order_items = db.order_items) := by
  constructor
  · intro hlt
    simp only [add_to_cart, hp, hne, if_pos hlt]
  · intro hge
    refine ⟨{ db with
        products := updateFirstProduct db.products ci.product_id
          (fun r => deductStock r ci.size ci.quantity),
        cart := db.cart ++ [⟨ci.user_id, ci.product_id, ci.size, ci.quantity⟩] },
      ?_, ?_, ?_, rfl, rfl, rfl, rfl⟩
    · simp only [add_to_cart, hp, hne, if_neg hge]
    · unfold findProduct at hp ⊢
      rw [find?_updateFirstProduct db.products ci.product_id _ p
        (fun r => deductStock_id r ci.size ci.quantity) hp]
      rw [Option.map_some', stockFor_deductStock]
    · intro s hs
      unfold findProduct at hp ⊢
      rw [find?_updateFirstProduct db.products ci.product_id _ p
        (fun r => deductStock_id r ci.size ci.quantity) hp]
      rw [Option.map_some', stockFor_deductStock_ne _ _ _ _ hs]

/-- Witness for C1: on the concrete empty-cart state, requesting 9 units of
size M (stock 5) is rejected with `InsufficientStock M` and the state is
returned unchanged. -/
theorem addToCart_new_entry_w :
    add_to_cart dbEmptyCart ⟨1, "p1", Size.M, 9⟩
      = (dbEmptyCart, .error (.insufficientStock Size.M)) :=
  (addToCart_new_entry dbEmptyCart ⟨1, "p1", Size.M, 9⟩ exP (by decide) (by decide)).1
    (by decide)

/-- **C2** For every quantity update of an existing cart entry (via
update_cart_quantity, or via add_to_cart on an already-present
(user, product, size) triple) with the product present, letting
delta = new_quantity - entry.quantity: if delta > 0 and available stock for
the size is at least delta, the size's stock counter decreases by exactly
delta and the entry's quantity becomes new_quantity; if delta > 0 and
available stock is less than delta, the operation fails with
InsufficientStock and both the stock counter and the entry are unchanged;
if delta < 0, the stock counter increases by exactly -delta and the entry's
quantity becomes new_quantity; if delta == 0, stock and entry are
unchanged. -/
theorem updateCartQuantity_delta (db : DB) (uid : Int) (pid : String) (s : Size)
    (q : Int) (e : CartRow) (p : Product)
    (he : findCartEntry db uid pid s = some e)
    (hp : findProduct db pid = some p) :
    (0 < q - e.quantity → ¬ stockFor p s < q - e.quantity →
      ∃ db1 : DB,
        update_cart_quantity db uid pid s q = (db1, .ok { e with quantity := q })
        ∧ (findProduct db1 pid).map (fun r => stockFor r s)
            = some (stockFor p s - (q - e.quantity))
        ∧ findCartEntry db1 uid pid s = some { e with quantity := q })
    ∧ (0 < q - e.quantity → stockFor p s < q - e.quantity →
      update_cart_quantity db uid pid s q = (db, .error (.insufficientStock s)))
    ∧ (q - e.quantity < 0 →
      ∃ db1 : DB,
        update_cart_quantity db uid pid s q = (db1, .ok { e with quantity := q })
        ∧ (findProduct db1 pid).map (fun r => stockFor r s)
            = some (stockFor p s + (e.quantity - q))
        ∧ findCartEntry db1 uid pid s = some { e with quantity := q })
    ∧ (q - e.quantity = 0 →
      update_cart_quantity db uid pid s q = (db, .ok { e with quantity := q }))
    ∧ add_to_cart db ⟨uid, pid, s, q⟩ = update_cart_quantity db uid pid s q := by
  refine ⟨?_, ?_, ?_, ?_, ?_⟩
  · intro hpos hok
    refine ⟨{ db with
        products := updateFirstProduct db.products pid
          (fun r => deductStock r s (q - e.quantity)),
        cart := setQtyFirst db.cart uid pid s q }, ?_, ?_, ?_⟩
    · simp only [update_cart_quantity, he, hp, if_pos hpos, if_neg hok]
    · unfold findProduct at hp ⊢
      rw [find?_updateFirstProduct db.products pid _ p
        (fun r => deductStock_id r s (q - e.quantity)) hp]
      rw [Option.map_some', stockFor_deductStock]
    · unfold findCartEntry at he ⊢
      exact find?_setQtyFirst db.cart uid pid s q e he
  · intro hpos hbad
    simp only [update_cart_quantity, he, hp, if_pos hpos, if_pos hbad]
  · intro hneg
    have hnotpos : ¬ 0 < q - e.quantity := by omega
    refine ⟨{ db with
        products := updateFirstProduct db.products pid
          (fun r => addStock r s (abs (q - e.quantity))),
        cart := setQtyFirst db.cart uid pid s q }, ?_, ?_, ?_⟩
    · simp only [update_cart_quantity, he, hp, if_neg hnotpos, if_pos hneg]
    · unfold findProduct at hp ⊢
      rw [find?_updateFirstProduct db.products pid _ p
        (fun r => addStock_id r s (abs (q - e.quantity))) hp]
      rw [Option.map_some', stockFor_addStock]
      rw [abs_of_neg hneg]
      ring_nf
    · unfold findCartEntry at he ⊢
      exact find?_setQtyFirst db.cart uid pid s q e he
  · intro hzero
    have hq : q = e.quantity := by omega
    have hnotpos : ¬ 0 < q - e.quantity := by omega
    have hnotneg : ¬ q - e.quantity < 0 := by omega
    simp only [update_cart_quantity, he, hp, if_neg hnotpos, if_neg hnotneg]
    unfold findCartEntry at he
    subst hq
    rw [setQtyFirst_self db.cart uid pid s e he]
  · simp only [add_to_cart, update_cart_quantity, he, hp]

/-- Witness for C2: updating the concrete entry `(1, "p1", M, qty 2)` to the
same quantity 2 (delta = 0) succeeds and leaves the state unchanged. -/
theorem updateCartQuantity_delta_w :
    update_cart_quantity dbOneEntry 1 "p1" Size.M 2
      = (dbOneEntry, .ok ⟨1, "p1", Size.M, 2⟩) :=
  (updateCartQuantity_delta dbOneEntry 1 "p1" Size.M 2 ⟨1, "p1", Size.M, 2⟩ exP
    (by decide) (by decide)).2.2.2.1 (by decide)

/-- **C3** If any product referenced by one of a user's cart entries is
absent from the catalog, createOrderFromCart fails with ProductNotFound
identifying that product (the first such entry in cart order), and after
the failed call no Order row, no OrderItem row, no cart-entry deletion, and
no stock change from this call is persisted — the product-existence check
for every entry happens before any order row is written, so the state is
returned exactly unchanged. -/
theorem createOrder_missing_product (db : DB) (o : OrderCreate) (u : User) (e : CartRow)
    (hu : findUser db o.user_id = some u)
    (hm : (db.cart.filter (fun c => c.user_id == o.user_id)).find?
        (fun c => (findProduct db c.product_id).isNone) = some e) :
    create_order_from_cart db o = (db, .error (.productNotFound e.product_id)) := by
  simp only [create_order_from_cart, hu]
  cases hcart : db.cart.filter (fun c => c.user_id == o.user_id) with
  | nil => rw [hcart] at hm; simp at hm
  | cons a l =>
    rw [hcart] at hm
    simp only [hm]

/-- Witness for C3: on the concrete state whose only cart entry references
the absent product `"ghost"`, order creation fails with
`ProductNotFound "ghost"` and the state is unchanged. -/
theorem createOrder_missing_product_w :
    create_order_from_cart dbOrphanEntry ⟨1, "2025-01-01"⟩
      = (dbOrphanEntry, .error (.productNotFound "ghost")) :=
  createOrder_missing_product dbOrphanEntry ⟨1, "2025-01-01"⟩ ⟨1, "u1"⟩
    ⟨1, "ghost", Size.M, 2⟩ (by decide) (by decide)

/-- **C4** For every createOrderFromCart call (in particular every
successful one), every product's stock counter for every size tier is
exactly the same after the call as before it: no branch of order commit
increments or decrements any stock field. -/
theorem createOrder_preserves_stock (db : DB) (o : OrderCreate) (pid : String)
    (s : Size) :
    (findProduct (create_order_from_cart db o).1 pid).map (fun r => stockFor r s)
      = (findProduct db pid).map (fun r => stockFor r s) := by
  have h : (create_order_from_cart db o).1.products = db.products := by
    simp only [create_order_from_cart]
    split
    · rfl
    · split
      · rfl
      · split
        · rfl
        · rfl
  unfold findProduct
  rw [h]

/-- **C6** For every product, size, and quantity q ≥ 1 with at least q units
in stock: adding a new cart entry of quantity q and then removing that same
entry restores the size's stock counter to exactly its value before the add
(reserve followed by release of the same quantity is the identity on
stock); the removal succeeds and the cart is back to its pre-add rows. -/
theorem addRemove_roundtrip (db : DB) (ci : CartCreate) (p : Product)
    (hp : findProduct db ci.product_id = some p)
    (hne : findCartEntry db ci.user_id ci.product_id ci.size = none)
    (_hq : 1 ≤ ci.quantity)
    (hstock : ¬ stockFor p ci.size < ci.quantity) :
    (remove_from_cart (add_to_cart db ci).1 ci.user_id ci.product_id ci.size).2
        = .ok ()
    ∧ (findProduct
          (remove_from_cart (add_to_cart db ci).1 ci.user_id ci.product_id ci.size).1
          ci.product_id).map (fun r => stockFor r ci.size)
        = some (stockFor p ci.size)
    ∧ (remove_from_cart (add_to_cart db ci).1 ci.user_id ci.product_id ci.size).1.cart
        = db.cart := by
  have hadd : (add_to_cart db ci).1
      = { db with
          products := updateFirstProduct db.products ci.product_id
            (fun r => deductStock r ci.size ci.quantity),
          cart := db.cart ++ [⟨ci.user_id, ci.product_id, ci.size, ci.quantity⟩] } := by
    simp only [add_to_cart, hp, hne, if_neg hstock]
  have hrow : cartMatches ci.user_id ci.product_id ci.size
      ⟨ci.user_id, ci.product_id, ci.size, ci.quantity⟩ = true := by
    simp [cartMatches]
  have hfind1 : findCartEntry (add_to_cart db ci).1 ci.user_id ci.product_id ci.size
      = some ⟨ci.user_id, ci.product_id, ci.size, ci.quantity⟩ := by
    rw [hadd]
    unfold findCartEntry at hne ⊢
    exact find?_append_singleton db.cart _ _ hne hrow
  have hfindp1 : findProduct (add_to_cart db ci).1 ci.product_id
      = some (deductStock p ci.size ci.quantity) := by
    rw [hadd]
    unfold findProduct at hp ⊢
    exact find?_updateFirstProduct db.products ci.product_id _ p
      (fun r => deductStock_id r ci.size ci.quantity) hp
  have hrem : remove_from_cart (add_to_cart db ci).1 ci.user_id ci.product_id ci.size
      = ({ (add_to_cart db ci).1 with
          products := updateFirstProduct (add_to_cart db ci).1.products ci.product_id
            (fun r => addStock r ci.size ci.quantity),
          cart := removeFirstEntry (add_to_cart db ci).1.cart
            ci.user_id ci.product_id ci.size }, .ok ()) := by
    simp only [remove_from_cart, hfind1, hfindp1]
  have hprods : updateFirstProduct (add_to_cart db ci).1.products ci.product_id
      (fun r => addStock r ci.size ci.quantity) = db.products := by
    rw [hadd]
    rw [updateFirstProduct_updateFirstProduct db.products ci.product_id _ _
      (fun r => deductStock_id r ci.size ci.quantity)]
    rw [updateFirstProduct_congr db.products ci.product_id _ (fun r => r)
      (fun r => addStock_deductStock r ci.size ci.quantity)]
    exact updateFirstProduct_id db.products ci.product_id
  have hcart : removeFirstEntry (add_to_cart db ci).1.cart
      ci.user_id ci.product_id ci.size = db.cart := by
    rw [hadd]
    unfold findCartEntry at hne
    exact removeFirstEntry_append_singleton db.cart _ _ _ _ hne hrow
  refine ⟨by rw [hrem], ?_, by rw [hrem]; exact hcart⟩
  rw [hrem]
  show ((updateFirstProduct (add_to_cart db ci).1.products ci.product_id
      (fun r => addStock r ci.size ci.quantity)).find?
        (fun x => x.id == ci.product_id)).map (fun r => stockFor r ci.size)
    = some (stockFor p ci.size)
  rw [hprods]
  unfold findProduct at hp
  rw [hp, Option.map_some']

/-- Witness for C6: on the concrete empty-cart state, adding 3 units of
size M (stock 5) and removing them again leaves the M stock counter at 5. -/
theorem addRemove_roundtrip_w :
    (findProduct
        (remove_from_cart (add_to_cart dbEmptyCart ⟨1, "p1", Size.M, 3⟩).1 1 "p1"
          Size.M).1 "p1").map (fun r => stockFor r Size.M) = some 5 :=
  (addRemove_roundtrip dbEmptyCart ⟨1, "p1", Size.M, 3⟩ exP (by decide) (by decide)
    (by decide) (by decide)).2.1

/-- **C5** (code-bug evaluation) On a concrete state where user 1 exists,
product `"p1"` exists, and the cart holds the single row
`(1, "p1", M, qty 2)`: `create_order_from_cart` persists the pending order
header with the given time, the snapshot order item, and the cart deletion,
but then — instead of returning the user's refreshed order list — raises
`AttributeError`, because the final `get_user_orders` read evaluates
`order.user.username` and the active `models.Order` declares no `user`
relationship. -/
theorem createOrder_commit_then_crash :
    create_order_from_cart dbOneEntry ⟨1, "2025-01-01"⟩
      = (⟨[⟨1, "u1"⟩], [exP], [], [⟨1, 1, "pending", "2025-01-01"⟩],
          [⟨1, "p1", Size.M, 2⟩], 2⟩,
        .error .attributeError) := by
  rfl

/-- The joined cart view has exactly one row per cart entry of the user,
provided each such entry's product is present in the catalog. -/
theorem cart_join_length (db : DB) (uid : Int) (l : List CartRow)
    (h : ∀ c ∈ l, c.user_id = uid → (findProduct db c.product_id).isSome) :
    (l.filterMap (fun c =>
        if c.user_id == uid then (findProduct db c.product_id).map (fun p => (p, c))
        else none)).length
      = (l.filter (fun c => c.user_id == uid)).length := by
  induction l with
  | nil => rfl
  | cons a l ih =>
    have ih' := ih (fun c hc hu => h c (List.mem_cons_of_mem _ hc) hu)
    by_cases ha : a.user_id = uid
    · have hs := h a (List.mem_cons_self _ _) ha
      obtain ⟨p, hp⟩ := Option.isSome_iff_exists.mp hs
      have hsome : (fun c => if c.user_id == uid then
            (findProduct db c.product_id).map (fun r => (r, c)) else none) a
          = some (p, a) := by
        show (if a.user_id == uid then
            (findProduct db a.product_id).map (fun r => (r, a)) else none) = some (p, a)
        rw [if_pos (by simp [ha]), hp]
        rfl
      rw [@List.filterMap_cons_some _ _ (fun c => if c.user_id == uid then
            (findProduct db c.product_id).map (fun r => (r, c)) else none) a l (p, a) hsome,
        List.filter_cons_of_pos (by simp [ha]),
        List.length_cons, List.length_cons, ih']
    · have hnone : (fun c => if c.user_id == uid then
            (findProduct db c.product_id).map (fun r => (r, c)) else none) a
          = none := by
        show (if a.user_id == uid then
            (findProduct db a.product_id).map (fun r => (r, a)) else none) = none
        rw [if_neg (by simp [ha])]
      rw [@List.filterMap_cons_none _ _ (fun c => if c.user_id == uid then
            (findProduct db c.product_id).map (fun r => (r, c)) else none) a l hnone,
        List.filter_cons_of_neg (by simp [ha]), ih']

/-- **C7, counterexample** On the concrete state with the single cart row
`(1, "p1", M, qty 2)` and unit M price 10, the cart view's `price` field is
10, whereas the claimed value — unit price multiplied by the entry's
quantity — is 20.  The view returns the bare per-size unit price; the
quantity multiplication claimed by the spec does not happen. -/
theorem getUserCart_price_cex :
    (get_user_cart dbOneEntry 1).items.map (fun i => i.price) = [10]
    ∧ (get_user_cart dbOneEntry 1).items.map
        (fun i => priceFor exP i.size * i.quantity) = [20]
    ∧ ((10 : Int) = 20 → False) := by
  refine ⟨rfl, rfl, by decide⟩

/-- **C7, amended** For every user whose cart entries all reference an
existing product, the cart view (get_user_cart) returns one item per cart
entry whose price field equals the product's unit price for that entry's
size tier (the quantity multiplier is *not* applied), together with
total_products equal to the number of distinct entries; the view is a pure
read and performs no stock mutation (it takes the state and returns only a
`CartResponse`). -/
theorem getUserCart_view (db : DB) (uid : Int)
    (hall : ∀ c ∈ db.cart, c.user_id = uid → (findProduct db c.product_id).isSome) :
    (get_user_cart db uid).items.length
        = (db.cart.filter (fun c => c.user_id == uid)).length
    ∧ (get_user_cart db uid).total_products = (get_user_cart db uid).items.length
    ∧ ∀ i ∈ (get_user_cart db uid).items,
        ∃ c ∈ db.cart, ∃ p : Product,
          findProduct db c.product_id = some p
          ∧ c.user_id = uid
          ∧ i.user_id = c.user_id ∧ i.product_id = c.product_id
          ∧ i.size = c.size ∧ i.quantity = c.quantity
          ∧ i.price = priceFor p c.size := by
  refine ⟨?_, rfl, ?_⟩
  · simp only [get_user_cart, List.length_map]
    exact cart_join_length db uid db.cart hall
  · intro i hi
    simp only [get_user_cart, List.mem_map, List.mem_filterMap] at hi
    obtain ⟨⟨p, c⟩, ⟨c', hc', hfc⟩, hi⟩ := hi
    by_cases hu : c'.user_id = uid
    · rw [if_pos (by simp [hu])] at hfc
      obtain ⟨p', hp', heq⟩ := Option.map_eq_some'.mp hfc
      have heq' : (p', c') = (p, c) := heq
      injection heq' with h1 h2
      subst h1
      subst h2
      refine ⟨c', hc', p', hp', hu, ?_⟩
      subst hi
      exact ⟨rfl, rfl, rfl, rfl, rfl⟩
    · rw [if_neg (by simp [hu])] at hfc
      exact absurd hfc (by simp)

/-- Witness for the amended C7: on the concrete one-entry state the view
has exactly one item and `total_products = 1`. -/
theorem getUserCart_view_w :
    (get_user_cart dbOneEntry 1).items.length
      = (dbOneEntry.cart.filter (fun c => c.user_id == 1)).length :=
  (getUserCart_view dbOneEntry 1 (by decide)).1

/-- **C8, counterexample** Removing the (absent) entry `(1, "p1", M)` from
the concrete empty-cart state is not a no-op *success*: the crud layer
returns `None` (modelled as `noneResult`), which is not a success result. -/
theorem removeFromCart_noop_success_cex :
    remove_from_cart dbEmptyCart 1 "p1" Size.M = (dbEmptyCart, .error .noneResult)
    ∧ (remove_from_cart dbEmptyCart 1 "p1" Size.M).2 ≠ .ok () := by
  refine ⟨rfl, ?_⟩
  intro h
  rw [show (remove_from_cart dbEmptyCart 1 "p1" Size.M).2
      = Except.error CrudError.noneResult from rfl] at h
  exact Except.noConfusion h

/-- **C8, amended** For every (user_id, product_id, size) triple with no
existing cart entry, the remove-from-cart operation fails without changing
any cart entry or stock counter: the crud layer returns `None`, which the
HTTP layer surfaces as `404 "Cart item not found"` (CartItemNotFound), and
performing it twice in a row yields the same failed no-op result both
times. -/
theorem removeFromCart_missing_is_404 (db : DB) (uid : Int) (pid : String) (s : Size)
    (h : findCartEntry db uid pid s = none) :
    remove_from_cart db uid pid s = (db, .error .noneResult)
    ∧ remove_from_cart_route db uid pid s = (db, .error (404, "Cart item not found"))
    ∧ remove_from_cart (remove_from_cart db uid pid s).1 uid pid s
        = remove_from_cart db uid pid s := by
  have h1 : remove_from_cart db uid pid s = (db, .error .noneResult) := by
    simp only [remove_from_cart, h]
  refine ⟨h1, ?_, ?_⟩
  · simp only [remove_from_cart_route, h1]
  · rw [h1]; exact h1

/-- Witness for the amended C8: on the concrete empty-cart state the HTTP
layer answers `404 "Cart item not found"` and the state is unchanged. -/
theorem removeFromCart_missing_is_404_w :
    remove_from_cart_route dbEmptyCart 1 "p1" Size.M
      = (dbEmptyCart, .error (404, "Cart item not found")) :=
  (removeFromCart_missing_is_404 dbEmptyCart 1 "p1" Size.M (by decide)).2.1

/-- Every cart row holds at least one unit. -/
def cartQuantityLB (db : DB) : Prop := ∀ c ∈ db.cart, 1 ≤ c.quantity

/-- Every branch of `add_to_cart` leaves the cart unchanged, sets the first
matching row's quantity to the requested one, or appends the new row. -/
theorem add_to_cart_cart_cases (db : DB) (ci : CartCreate) :
    (add_to_cart db ci).1.cart = db.cart
    ∨ (add_to_cart db ci).1.cart
        = setQtyFirst db.cart ci.user_id ci.product_id ci.size ci.quantity
    ∨ (add_to_cart db ci).1.cart
        = db.cart ++ [⟨ci.user_id, ci.product_id, ci.size, ci.quantity⟩] := by
  simp only [add_to_cart]
  split
  · left; rfl
  · split
    · split
      · split
        · left; rfl
        · right; left; rfl
      · split
        · right; left; rfl
        · right; left; rfl
    · split
      · left; rfl
      · right; right; rfl

/-- Every branch of `update_cart_quantity` leaves the cart unchanged or sets
the first matching row's quantity to the requested one. -/
theorem update_cart_quantity_cart_cases (db : DB) (uid : Int) (pid : String) (s : Size)
    (q : Int) :
    (update_cart_quantity db uid pid s q).1.cart = db.cart
    ∨ (update_cart_quantity db uid pid s q).1.cart = setQtyFirst db.cart uid pid s q := by
  simp only [update_cart_quantity]
  split
  · left; rfl
  · split
    · left; rfl
    · split
      · split
        · left; rfl
        · right; rfl
      · split
        · right; rfl
        · right; rfl

/-- **C9** Every cart entry always has quantity ≥ 1: every cart mutation
(add_to_cart creating or updating an entry, update_cart_quantity) either
rejects a requested quantity below 1 (at the spec-modelled validation
layer) or leaves only entries whose quantity is at least 1 in the store. -/
theorem cartMutations_min_quantity (db : DB) (ci : CartCreate) (uid : Int)
    (pid : String) (s : Size) (q : Int) (hinv : cartQuantityLB db) :
    (ci.quantity < 1 → add_to_cart_validated db ci = (db, .error .validationError))
    ∧ (q < 1 → update_cart_quantity_validated db uid pid s q
        = (db, .error .validationError))
    ∧ cartQuantityLB (add_to_cart_validated db ci).1
    ∧ cartQuantityLB (update_cart_quantity_validated db uid pid s q).1 := by
  refine ⟨fun hlt => by simp only [add_to_cart_validated, if_pos hlt],
    fun hlt => by simp only [update_cart_quantity_validated, if_pos hlt], ?_, ?_⟩
  · unfold add_to_cart_validated
    split
    · exact hinv
    next hge =>
      have hq1 : 1 ≤ ci.quantity := by omega
      rcases add_to_cart_cart_cases db ci with hc | hc | hc <;> intro r hr <;> rw [hc] at hr
      · exact hinv r hr
      · rcases mem_setQtyFirst db.cart ci.user_id ci.product_id ci.size ci.quantity r hr
          with h' | h'
        · exact hinv r h'
        · rw [h']; exact hq1
      · rcases List.mem_append.mp hr with h' | h'
        · exact hinv r h'
        · rw [List.mem_singleton.mp h']; exact hq1
  · unfold update_cart_quantity_validated
    split
    · exact hinv
    next hge =>
      have hq1 : 1 ≤ q := by omega
      rcases update_cart_quantity_cart_cases db uid pid s q with hc | hc <;>
        intro r hr <;> rw [hc] at hr
      · exact hinv r hr
      · rcases mem_setQtyFirst db.cart uid pid s q r hr with h' | h'
        · exact hinv r h'
        · rw [h']; exact hq1

/-- Witness for C9: on the concrete one-entry state (quantity 2), a request
with quantity 0 is rejected by the validation layer. -/
theorem cartMutations_min_quantity_w :
    add_to_cart_validated dbOneEntry ⟨1, "p1", Size.M, 0⟩
      = (dbOneEntry, .error .validationError) :=
  (cartMutations_min_quantity dbOneEntry ⟨1, "p1", Size.M, 0⟩ 1 "p1" Size.M 0
    (by simp [cartQuantityLB, dbOneEntry])).1 (by decide)

/-- **C10** For every cart entry whose referenced product no longer exists
in the catalog, remove_from_cart returns failure (`None` at the crud layer,
surfaced by the HTTP layer as `404 "Cart item not found"`, i.e.
CartItemNotFound) and leaves the cart entry in place with no stock change —
the state is returned unchanged, so such an entry can never be removed
through the public remove operation while the product stays absent. -/
theorem removeFromCart_orphan_entry (db : DB) (uid : Int) (pid : String) (s : Size)
    (e : CartRow)
    (he : findCartEntry db uid pid s = some e)
    (hp : findProduct db pid = none) :
    remove_from_cart db uid pid s = (db, .error .noneResult)
    ∧ remove_from_cart_route db uid pid s = (db, .error (404, "Cart item not found"))
    ∧ findCartEntry (remove_from_cart db uid pid s).1 uid pid s = some e := by
  have h1 : remove_from_cart db uid pid s = (db, .error .noneResult) := by
    simp only [remove_from_cart, he, hp]
  refine ⟨h1, ?_, ?_⟩
  · simp only [remove_from_cart_route, h1]
  · rw [h1]; exact he

/-- Witness for C10: on the concrete state whose only cart entry references
the absent product `"ghost"`, removal fails with 404 and the entry
survives. -/
theorem removeFromCart_orphan_entry_w :
    remove_from_cart_route dbOrphanEntry 1 "ghost" Size.M
      = (dbOrphanEntry, .error (404, "Cart item not found")) :=
  (removeFromCart_orphan_entry dbOrphanEntry 1 "ghost" Size.M ⟨1, "ghost", Size.M, 2⟩
    (by decide) (by decide)).2.1

end Rangista
